import Mathlib

/-!
Shallow embedding of `exporter/exporter.go` of the mongodb_exporter
repository: the scrape-time orchestration engine (connection lifecycle,
collection-count cache, topology-dependent registry assembly, HTTP
handler).  Network calls (`connect`, `nonSystemCollectionsCount`,
`newTopologyInfo`, `getNodeType`) are modelled by passing their outcome
as an explicit environment value; mutexes only serialize access and are
not part of the sequential state.
-/

namespace MongodbExporter

/-- Opaque handle standing for the pointee of a Go `*mongo.Client`;
`Option Client` models the nullable pointer. -/
abbrev Client := Nat

/-- Opaque handle standing for the pointee of a Go `*logrus.Logger`;
`Option Logger` models the nullable pointer. -/
abbrev Logger := Nat

/-- The logger produced by `logrus.New()` inside `New`. -/
def defaultLogger : Logger := 0

/-- Per-request topology information (`*topologyInfo`, used as a
`labelsGetter`).  Its contents are produced by code outside this core,
so it is opaque here; `Option TopologyInfo` models the nullable pointer
passed to `makeRegistry`. -/
abbrev TopologyInfo := Unit

/-- Modelled from the spec: the node-role classification returned by
`getNodeType`, whose definition is not under src/.  The spec's Topology
Resolver classifies the node as a routing node (mongos) versus a
data-bearing node (replica member or standalone); `unknown` is the role
seen by the caller when the classification query fails. -/
inductive NodeType
  | mongos
  | mongod
  | arbiter
  | unknown
deriving DecidableEq, Repr

/-- The mongos (routing node) role constant compared against in
`makeRegistry`. -/
def typeMongos : NodeType := NodeType.mongos

/-- Modelled from the spec: `getNodeType` (not under src/) issues a
single lightweight administrative query; `outcome` is the environment's
answer to that query.  On success it returns the classified role and no
error; on failure it returns the error together with the unknown
(non-router) role, which is the value the caller's gating then sees. -/
def getNodeType (outcome : Except String NodeType) : NodeType × Option String :=
  match outcome with
  | Except.ok t => (t, none)
  | Except.error msg => (NodeType.unknown, some msg)

/-- Opts holds new exporter options (struct `Opts` in exporter.go). -/
structure Opts where
  CollStatsNamespaces : List String
  CollStatsLimit : Int
  CompatibleMode : Bool
  DirectConnect : Bool
  DisableDefaultRegistry : Bool
  DiscoveringMode : Bool
  GlobalConnPool : Bool
  CollectAll : Bool
  EnableDBStats : Bool
  EnableDiagnosticData : Bool
  EnableReplicasetStatus : Bool
  EnableTopMetrics : Bool
  EnableIndexStats : Bool
  EnableCollStats : Bool
  IndexStatsCollections : List String
  Logger : Option Logger
  Path : String
  URI : String
  WebListenAddress : String
deriving DecidableEq, Repr

/-- The zero value of `Opts`, as produced by Go `new(Opts)`. -/
def Opts.zero : Opts where
  CollStatsNamespaces := []
  CollStatsLimit := 0
  CompatibleMode := false
  DirectConnect := false
  DisableDefaultRegistry := false
  DiscoveringMode := false
  GlobalConnPool := false
  CollectAll := false
  EnableDBStats := false
  EnableDiagnosticData := false
  EnableReplicasetStatus := false
  EnableTopMetrics := false
  EnableIndexStats := false
  EnableCollStats := false
  IndexStatsCollections := []
  Logger := none
  Path := ""
  URI := ""
  WebListenAddress := ""

/-- Exporter holds Exporter methods and attributes (struct `Exporter`).
The two mutexes (`clientMu`, `lock`) only guard access and carry no
data, so they are omitted from the sequential state. -/
structure Exporter where
  path : String
  client : Option Client
  logger : Option Logger
  opts : Opts
  webListenAddress : String
  totalCollectionsCount : Int
deriving DecidableEq, Repr

/-- `New`: builds the exporter instance.  The fire-and-forget initial
connect goroutine is modelled separately by `backgroundConnect`,
since construction itself performs no connect and cannot fail. -/
def New (opts0 : Option Opts) : Exporter :=
  let opts :=
    match opts0 with
    | none => Opts.zero
    | some o => o
  let opts :=
    match opts.Logger with
    | none => { opts with Logger := some defaultLogger }
    | some _ => opts
  { path := opts.Path
    client := none
    logger := opts.Logger
    opts := opts
    webListenAddress := opts.WebListenAddress
    totalCollectionsCount := -1 }

/-- `getTotalCollectionsCount`: reads the cached count under lock. -/
def Exporter.getTotalCollectionsCount (e : Exporter) : Int :=
  e.totalCollectionsCount

/-- `getClient`: `connectOutcome` is the environment's answer to the
`connect` network call (consulted only when a connect is attempted).
Returns the Go result pair (client or error) together with the updated
exporter. -/
def Exporter.getClient (e : Exporter) (connectOutcome : Except String Client) :
    Except String Client × Exporter :=
  if e.opts.GlobalConnPool then
    match e.client with
    | some c => (Except.ok c, e)
    | none =>
      match connectOutcome with
      | Except.error err => (Except.error err, e)
      | Except.ok c => (Except.ok c, { e with client := some c })
  else
    match connectOutcome with
    | Except.error err => (Except.error err, e)
    | Except.ok c => (Except.ok c, e)

/-- The fire-and-forget goroutine spawned by `New`: it calls `getClient`
and logs any error; its only effect on the exporter is whatever
`getClient` stores. -/
def backgroundConnect (e : Exporter) (connectOutcome : Except String Client) : Exporter :=
  (e.getClient connectOutcome).2

/-- Fields of the `generalCollector` struct (request context omitted). -/
structure generalCollector where
  client : Option Client
  logger : Option Logger
deriving DecidableEq, Repr

/-- Fields of the `collstatsCollector` struct (request context omitted). -/
structure collstatsCollector where
  client : Option Client
  collections : List String
  compatibleMode : Bool
  discoveringMode : Bool
  logger : Option Logger
  topologyInfo : Option TopologyInfo
deriving DecidableEq, Repr

/-- Fields of the `indexstatsCollector` struct (request context omitted). -/
structure indexstatsCollector where
  client : Option Client
  collections : List String
  discoveringMode : Bool
  logger : Option Logger
  topologyInfo : Option TopologyInfo
deriving DecidableEq, Repr

/-- Fields of the `diagnosticDataCollector` struct (request context omitted). -/
structure diagnosticDataCollector where
  client : Option Client
  compatibleMode : Bool
  logger : Option Logger
  topologyInfo : Option TopologyInfo
deriving DecidableEq, Repr

/-- Fields of the `dbstatsCollector` struct (request context omitted). -/
structure dbstatsCollector where
  client : Option Client
  compatibleMode : Bool
  logger : Option Logger
  topologyInfo : Option TopologyInfo
deriving DecidableEq, Repr

/-- Fields of the `topCollector` struct (request context omitted). -/
structure topCollector where
  client : Option Client
  compatibleMode : Bool
  logger : Option Logger
  topologyInfo : Option TopologyInfo
deriving DecidableEq, Repr

/-- Fields of the `replSetGetStatusCollector` struct (request context omitted). -/
structure replSetGetStatusCollector where
  client : Option Client
  compatibleMode : Bool
  logger : Option Logger
  topologyInfo : Option TopologyInfo
deriving DecidableEq, Repr

/-- The closed set of collectors that `makeRegistry` may register. -/
inductive Collector
  | general (c : generalCollector)
  | collstats (c : collstatsCollector)
  | indexstats (c : indexstatsCollector)
  | diagnosticData (c : diagnosticDataCollector)
  | dbstats (c : dbstatsCollector)
  | top (c : topCollector)
  | replSetGetStatus (c : replSetGetStatusCollector)
deriving DecidableEq, Repr

def Collector.isGeneral : Collector → Bool
  | Collector.general _ => true
  | _ => false

def Collector.isCollstats : Collector → Bool
  | Collector.collstats _ => true
  | _ => false

def Collector.isIndexstats : Collector → Bool
  | Collector.indexstats _ => true
  | _ => false

def Collector.isDiagnosticData : Collector → Bool
  | Collector.diagnosticData _ => true
  | _ => false

def Collector.isDbstats : Collector → Bool
  | Collector.dbstats _ => true
  | _ => false

def Collector.isTop : Collector → Bool
  | Collector.top _ => true
  | _ => false

def Collector.isReplSetGetStatus : Collector → Bool
  | Collector.replSetGetStatus _ => true
  | _ => false

/-- The limit gate computed at exporter.go lines 140-144: collstats and
indexstats style collectors are allowed when the configured limit is 0
(unlimited) or the cached count is strictly positive and strictly below
the limit. -/
def limitsOkOf (e : Exporter) : Bool :=
  e.opts.CollStatsLimit == 0 ||
    (decide (e.getTotalCollectionsCount > 0) &&
      decide (e.getTotalCollectionsCount < e.opts.CollStatsLimit))

/-- The CollectAll shortcut (exporter.go lines 146-154): with the
collect-all flag set, force discovery mode when no namespace list was
given, and force the diagnostic-data, db-stats, top and replica-set
status enable flags. -/
def applyCollectAll (opts : Opts) : Opts :=
  if opts.CollectAll then
    let opts0 :=
      if opts.CollStatsNamespaces.length == 0 then
        { opts with DiscoveringMode := true }
      else opts
    { opts0 with
      EnableDiagnosticData := true
      EnableDBStats := true
      EnableTopMetrics := true
      EnableReplicasetStatus := true }
  else opts

/-- `makeRegistry`: builds the request-scoped registry, in registration
order.  `nodeTypeOutcome` is the environment's answer to the
`getNodeType` query.  Because the `CollectAll` branch writes through
`e.opts`, the updated exporter is returned alongside the registry. -/
def Exporter.makeRegistry (e : Exporter) (client : Option Client)
    (topologyInfo : Option TopologyInfo)
    (nodeTypeOutcome : Except String NodeType) : List Collector × Exporter :=
  match client with
  | none => ([Collector.general { client := client, logger := e.opts.Logger }], e)
  | some _ =>
    let nodeType := (getNodeType nodeTypeOutcome).1
    let limitsOk := limitsOkOf e
    let opts := applyCollectAll e.opts
    let registry : List Collector :=
      [Collector.general { client := client, logger := e.opts.Logger }]
      ++ (if (decide (opts.CollStatsNamespaces.length > 0) || opts.DiscoveringMode)
            && opts.EnableCollStats && limitsOk then
            [Collector.collstats
              { client := client
                collections := opts.CollStatsNamespaces
                compatibleMode := opts.CompatibleMode
                discoveringMode := opts.DiscoveringMode
                logger := opts.Logger
                topologyInfo := topologyInfo }]
          else [])
      ++ (if (decide (opts.IndexStatsCollections.length > 0) || opts.DiscoveringMode)
            && opts.EnableIndexStats && limitsOk then
            [Collector.indexstats
              { client := client
                collections := opts.IndexStatsCollections
                discoveringMode := opts.DiscoveringMode
                logger := opts.Logger
                topologyInfo := topologyInfo }]
          else [])
      ++ (if opts.EnableDiagnosticData then
            [Collector.diagnosticData
              { client := client
                compatibleMode := opts.CompatibleMode
                logger := opts.Logger
                topologyInfo := topologyInfo }]
          else [])
      ++ (if opts.EnableDBStats then
            [Collector.dbstats
              { client := client
                compatibleMode := opts.CompatibleMode
                logger := opts.Logger
                topologyInfo := topologyInfo }]
          else [])
      ++ (if opts.EnableTopMetrics && decide (nodeType ≠ typeMongos) then
            [Collector.top
              { client := client
                compatibleMode := opts.CompatibleMode
                logger := opts.Logger
                topologyInfo := topologyInfo }]
          else [])
      ++ (if opts.EnableReplicasetStatus && decide (nodeType ≠ typeMongos) then
            [Collector.replSetGetStatus
              { client := client
                compatibleMode := opts.CompatibleMode
                logger := opts.Logger
                topologyInfo := topologyInfo }]
          else [])
    (registry, { e with opts := opts })

/-- A chunk written to the HTTP response body: either the plain-text
output of `http.Error`, or the metrics exposition produced by the
promhttp handler over the gatherers (the default gatherer when not
disabled, plus the request-scoped registry). -/
inductive BodyChunk
  | errorText (s : String)
  | exposition (withDefaultGatherer : Bool) (collectors : List Collector)
deriving DecidableEq, Repr

/-- The observable part of an `http.ResponseWriter`: the status code is
written at most once (later writes are no-ops), body chunks accumulate. -/
structure HttpResponse where
  status : Option Nat
  body : List BodyChunk
deriving DecidableEq, Repr

def HttpResponse.empty : HttpResponse := { status := none, body := [] }

/-- Go `http.Error`: writes the header (a no-op if one was already
written) and appends the message to the body. -/
def HttpResponse.httpError (r : HttpResponse) (msg : String) (code : Nat) : HttpResponse :=
  { status := some (r.status.getD code), body := r.body ++ [BodyChunk.errorText msg] }

/-- The promhttp handler delegation: writes 200 if no header has been
written yet and appends the exposition of the gathered metrics. -/
def HttpResponse.serveMetrics (r : HttpResponse) (withDefaultGatherer : Bool)
    (collectors : List Collector) : HttpResponse :=
  { status := some (r.status.getD 200)
    body := r.body ++ [BodyChunk.exposition withDefaultGatherer collectors] }

/-- The final status code of a response (200 when still unwritten). -/
def HttpResponse.code (r : HttpResponse) : Nat := r.status.getD 200

/-- The environment of one scrape request: the outcomes of the network
calls the handler may issue.  `countOutcome` is the answer of
`nonSystemCollectionsCount`; modelled from the spec, that call computes
"the number of non-system collections across accessible databases", so
a successful outcome carries a natural number. -/
structure ScrapeEnv where
  connectOutcome : Except String Client
  countOutcome : Except String Nat
  topologyOutcome : Except String TopologyInfo
  nodeTypeOutcome : Except String NodeType

/-- The count-if-unknown step of the handler (exporter.go lines
274-281): with a live client and a still-negative cache, a successful
`nonSystemCollectionsCount` stores its result; a failure leaves the
cache untouched. -/
def countIfUnknown (e : Exporter) (client : Option Client)
    (countOutcome : Except String Nat) : Exporter :=
  if client.isSome && decide (e.getTotalCollectionsCount < 0) then
    match countOutcome with
    | Except.ok count => { e with totalCollectionsCount := (count : Int) }
    | Except.error _ => e
  else e

/-- The topology-classification step of the handler (exporter.go lines
296-307): with a live client, a failing `newTopologyInfo` writes a 500
header plus the error text and leaves the topology info nil; otherwise
the response is untouched. -/
def topologyStep (client : Option Client)
    (topologyOutcome : Except String TopologyInfo) :
    Option TopologyInfo × HttpResponse :=
  match client with
  | none => (none, HttpResponse.empty)
  | some _ =>
    match topologyOutcome with
    | Except.ok t => (some t, HttpResponse.empty)
    | Except.error msg =>
      (none,
        HttpResponse.empty.httpError
          ("An error has occurred while getting topology info:\n\n" ++ msg) 500)

/-- `Handler`: one scrape request.  Sequences getClient, the
count-if-unknown step, topology classification (500 + error text on
failure), registry assembly and metrics serving, and returns the
response together with the updated exporter state.  The per-request
disconnect of a non-pooled client releases an external resource and
does not change exporter state, so it has no footprint here. -/
def Exporter.Handler (e : Exporter) (env : ScrapeEnv) : HttpResponse × Exporter :=
  let step := e.getClient env.connectOutcome
  let client : Option Client := step.1.toOption
  let e2 := countIfUnknown step.2 client env.countOutcome
  let tiResp := topologyStep client env.topologyOutcome
  let built := e2.makeRegistry client tiResp.1 env.nodeTypeOutcome
  let w := tiResp.2.serveMetrics (!built.2.opts.DisableDefaultRegistry) built.1
  (w, built.2)

/-- A concrete exporter state, used to instantiate witnesses and
counterexamples on explicit inputs. -/
def mkExporter (opts : Opts) (client : Option Client) (count : Int) : Exporter :=
  { path := ""
    client := client
    logger := some defaultLogger
    opts := opts
    webListenAddress := ""
    totalCollectionsCount := count }

/-- Options with the four role-related enable flags set, used in
witnesses. -/
def optsAllRoleFlags : Opts :=
  { Opts.zero with
      EnableDiagnosticData := true
      EnableDBStats := true
      EnableTopMetrics := true
      EnableReplicasetStatus := true }

/-- Options with only the role-restricted enable flags set, used in
counterexamples. -/
def optsRoleRestricted : Opts :=
  { Opts.zero with
      EnableTopMetrics := true
      EnableReplicasetStatus := true }

/-- Options with only the collect-all flag set, used in witnesses and
counterexamples. -/
def optsCollectAllOnly : Opts :=
  { Opts.zero with CollectAll := true }

/-- Options with collect-all and the per-collection-stats enable flag
set, used in witnesses. -/
def optsCollectAllStats : Opts :=
  { Opts.zero with CollectAll := true, EnableCollStats := true }

/-- A scrape environment whose connect succeeds with handle 1, used in
witnesses. -/
def envOk (co : Except String Nat) : ScrapeEnv :=
  { connectOutcome := Except.ok 1
    countOutcome := co
    topologyOutcome := Except.ok ()
    nodeTypeOutcome := Except.ok NodeType.mongod }

/-- A scrape environment whose connect fails, used in witnesses. -/
def envDown : ScrapeEnv :=
  { connectOutcome := Except.error "down"
    countOutcome := Except.ok 5
    topologyOutcome := Except.ok ()
    nodeTypeOutcome := Except.ok NodeType.mongod }

/-- A scrape environment whose connect succeeds but whose topology
classification fails, used in witnesses. -/
def envTopoFail : ScrapeEnv :=
  { connectOutcome := Except.ok 1
    countOutcome := Except.ok 5
    topologyOutcome := Except.error "not primary"
    nodeTypeOutcome := Except.ok NodeType.mongod }

/-! Helper lemmas shared by the claim theorems. -/

theorem any_ite_singleton (p : Collector → Bool) (b : Bool) (x : Collector) :
    (if b then [x] else []).any p = (b && p x) := by
  cases b <;> simp

theorem applyCollectAll_of_not_collectAll (o : Opts) (h : o.CollectAll = false) :
    applyCollectAll o = o := by
  unfold applyCollectAll
  simp [h]

theorem applyCollectAll_EnableDiagnosticData (o : Opts) :
    (applyCollectAll o).EnableDiagnosticData = (o.CollectAll || o.EnableDiagnosticData) := by
  unfold applyCollectAll
  split_ifs <;> simp_all

theorem applyCollectAll_EnableDBStats (o : Opts) :
    (applyCollectAll o).EnableDBStats = (o.CollectAll || o.EnableDBStats) := by
  unfold applyCollectAll
  split_ifs <;> simp_all

theorem applyCollectAll_EnableTopMetrics (o : Opts) :
    (applyCollectAll o).EnableTopMetrics = (o.CollectAll || o.EnableTopMetrics) := by
  unfold applyCollectAll
  split_ifs <;> simp_all

theorem applyCollectAll_EnableReplicasetStatus (o : Opts) :
    (applyCollectAll o).EnableReplicasetStatus = (o.CollectAll || o.EnableReplicasetStatus) := by
  unfold applyCollectAll
  split_ifs <;> simp_all

theorem applyCollectAll_DiscoveringMode (o : Opts) :
    (applyCollectAll o).DiscoveringMode
      = ((o.CollectAll && (o.CollStatsNamespaces.length == 0)) || o.DiscoveringMode) := by
  unfold applyCollectAll
  split_ifs <;> simp_all

theorem applyCollectAll_EnableCollStats (o : Opts) :
    (applyCollectAll o).EnableCollStats = o.EnableCollStats := by
  unfold applyCollectAll
  split_ifs <;> simp_all

theorem applyCollectAll_EnableIndexStats (o : Opts) :
    (applyCollectAll o).EnableIndexStats = o.EnableIndexStats := by
  unfold applyCollectAll
  split_ifs <;> simp_all

theorem applyCollectAll_CollStatsNamespaces (o : Opts) :
    (applyCollectAll o).CollStatsNamespaces = o.CollStatsNamespaces := by
  unfold applyCollectAll
  split_ifs <;> simp_all

theorem applyCollectAll_IndexStatsCollections (o : Opts) :
    (applyCollectAll o).IndexStatsCollections = o.IndexStatsCollections := by
  unfold applyCollectAll
  split_ifs <;> simp_all

theorem getClient_snd_opts (e : Exporter) (o : Except String Client) :
    (e.getClient o).2.opts = e.opts := by
  unfold Exporter.getClient
  repeat' split
  all_goals rfl

theorem getClient_snd_count (e : Exporter) (o : Except String Client) :
    (e.getClient o).2.totalCollectionsCount = e.totalCollectionsCount := by
  unfold Exporter.getClient
  repeat' split
  all_goals rfl

theorem getClient_snd_path (e : Exporter) (o : Except String Client) :
    (e.getClient o).2.path = e.path := by
  unfold Exporter.getClient
  repeat' split
  all_goals rfl

theorem getClient_snd_web (e : Exporter) (o : Except String Client) :
    (e.getClient o).2.webListenAddress = e.webListenAddress := by
  unfold Exporter.getClient
  repeat' split
  all_goals rfl

theorem getClient_snd_logger (e : Exporter) (o : Except String Client) :
    (e.getClient o).2.logger = e.logger := by
  unfold Exporter.getClient
  repeat' split
  all_goals rfl

theorem getClient_snd_of_error (e : Exporter) (o : Except String Client) (m : String)
    (h : (e.getClient o).1 = Except.error m) : (e.getClient o).2 = e := by
  unfold Exporter.getClient at h ⊢
  repeat' split
  all_goals simp_all

theorem getClient_fst_toOption_of_ok (e : Exporter) (o : Except String Client) (c : Client)
    (h : (e.getClient o).1 = Except.ok c) :
    (e.getClient o).1.toOption = some c := by
  rw [h]
  rfl

theorem getClient_fst_toOption_of_error (e : Exporter) (o : Except String Client) (m : String)
    (h : (e.getClient o).1 = Except.error m) :
    (e.getClient o).1.toOption = none := by
  rw [h]
  rfl

theorem countIfUnknown_opts (e : Exporter) (cl : Option Client)
    (co : Except String Nat) : (countIfUnknown e cl co).opts = e.opts := by
  unfold countIfUnknown
  repeat' split
  all_goals rfl

theorem countIfUnknown_path (e : Exporter) (cl : Option Client)
    (co : Except String Nat) : (countIfUnknown e cl co).path = e.path := by
  unfold countIfUnknown
  repeat' split
  all_goals rfl

theorem countIfUnknown_web (e : Exporter) (cl : Option Client)
    (co : Except String Nat) :
    (countIfUnknown e cl co).webListenAddress = e.webListenAddress := by
  unfold countIfUnknown
  repeat' split
  all_goals rfl

theorem countIfUnknown_logger (e : Exporter) (cl : Option Client)
    (co : Except String Nat) : (countIfUnknown e cl co).logger = e.logger := by
  unfold countIfUnknown
  repeat' split
  all_goals rfl

theorem countIfUnknown_of_none (e : Exporter) (co : Except String Nat) :
    countIfUnknown e none co = e := rfl

theorem countIfUnknown_of_nonneg (e : Exporter) (cl : Option Client)
    (co : Except String Nat) (h : 0 ≤ e.totalCollectionsCount) :
    countIfUnknown e cl co = e := by
  unfold countIfUnknown
  split
  · next hc =>
    rw [Bool.and_eq_true] at hc
    have := of_decide_eq_true hc.2
    unfold Exporter.getTotalCollectionsCount at this
    omega
  · rfl

theorem countIfUnknown_of_ok (e : Exporter) (c : Client) (n : Nat)
    (h : e.totalCollectionsCount < 0) :
    countIfUnknown e (some c) (Except.ok n)
      = { e with totalCollectionsCount := (n : Int) } := by
  unfold countIfUnknown
  split
  · rfl
  · next hc =>
    exfalso
    apply hc
    simp [Exporter.getTotalCollectionsCount, h]

theorem countIfUnknown_of_error (e : Exporter) (cl : Option Client) (m : String) :
    countIfUnknown e cl (Except.error m) = e := by
  unfold countIfUnknown
  split <;> rfl

theorem makeRegistry_snd_count (e : Exporter) (c : Option Client)
    (ti : Option TopologyInfo) (nt : Except String NodeType) :
    (e.makeRegistry c ti nt).2.totalCollectionsCount = e.totalCollectionsCount := by
  cases c <;> rfl

theorem makeRegistry_snd_client (e : Exporter) (c : Option Client)
    (ti : Option TopologyInfo) (nt : Except String NodeType) :
    (e.makeRegistry c ti nt).2.client = e.client := by
  cases c <;> rfl

theorem makeRegistry_snd_path (e : Exporter) (c : Option Client)
    (ti : Option TopologyInfo) (nt : Except String NodeType) :
    (e.makeRegistry c ti nt).2.path = e.path := by
  cases c <;> rfl

theorem makeRegistry_snd_web (e : Exporter) (c : Option Client)
    (ti : Option TopologyInfo) (nt : Except String NodeType) :
    (e.makeRegistry c ti nt).2.webListenAddress = e.webListenAddress := by
  cases c <;> rfl

theorem makeRegistry_snd_logger (e : Exporter) (c : Option Client)
    (ti : Option TopologyInfo) (nt : Except String NodeType) :
    (e.makeRegistry c ti nt).2.logger = e.logger := by
  cases c <;> rfl

theorem makeRegistry_snd_opts_some (e : Exporter) (c : Client)
    (ti : Option TopologyInfo) (nt : Except String NodeType) :
    (e.makeRegistry (some c) ti nt).2.opts = applyCollectAll e.opts := rfl

theorem makeRegistry_snd_opts_of_not_collectAll (e : Exporter) (c : Option Client)
    (ti : Option TopologyInfo) (nt : Except String NodeType)
    (h : e.opts.CollectAll = false) :
    (e.makeRegistry c ti nt).2.opts = e.opts := by
  cases c with
  | none => rfl
  | some c =>
    rw [makeRegistry_snd_opts_some, applyCollectAll_of_not_collectAll _ h]

theorem makeRegistry_any_general (e : Exporter) (c : Option Client)
    (ti : Option TopologyInfo) (nt : Except String NodeType) :
    (e.makeRegistry c ti nt).1.any Collector.isGeneral = true := by
  cases c <;>
    simp [Exporter.makeRegistry, List.any_append, any_ite_singleton,
      Collector.isGeneral]

theorem makeRegistry_any_collstats (e : Exporter) (c : Client)
    (ti : Option TopologyInfo) (nt : Except String NodeType) :
    (e.makeRegistry (some c) ti nt).1.any Collector.isCollstats
      = ((decide ((applyCollectAll e.opts).CollStatsNamespaces.length > 0)
            || (applyCollectAll e.opts).DiscoveringMode)
          && (applyCollectAll e.opts).EnableCollStats && limitsOkOf e) := by
  simp only [Exporter.makeRegistry, List.any_append, any_ite_singleton]
  simp [Collector.isCollstats, Collector.isGeneral, Collector.isIndexstats,
    Collector.isDiagnosticData, Collector.isDbstats, Collector.isTop,
    Collector.isReplSetGetStatus]

theorem makeRegistry_any_indexstats (e : Exporter) (c : Client)
    (ti : Option TopologyInfo) (nt : Except String NodeType) :
    (e.makeRegistry (some c) ti nt).1.any Collector.isIndexstats
      = ((decide ((applyCollectAll e.opts).IndexStatsCollections.length > 0)
            || (applyCollectAll e.opts).DiscoveringMode)
          && (applyCollectAll e.opts).EnableIndexStats && limitsOkOf e) := by
  simp only [Exporter.makeRegistry, List.any_append, any_ite_singleton]
  simp [Collector.isCollstats, Collector.isGeneral, Collector.isIndexstats,
    Collector.isDiagnosticData, Collector.isDbstats, Collector.isTop,
    Collector.isReplSetGetStatus]

theorem makeRegistry_any_diagnosticData (e : Exporter) (c : Client)
    (ti : Option TopologyInfo) (nt : Except String NodeType) :
    (e.makeRegistry (some c) ti nt).1.any Collector.isDiagnosticData
      = (applyCollectAll e.opts).EnableDiagnosticData := by
  simp only [Exporter.makeRegistry, List.any_append, any_ite_singleton]
  simp [Collector.isCollstats, Collector.isGeneral, Collector.isIndexstats,
    Collector.isDiagnosticData, Collector.isDbstats, Collector.isTop,
    Collector.isReplSetGetStatus]

theorem makeRegistry_any_dbstats (e : Exporter) (c : Client)
    (ti : Option TopologyInfo) (nt : Except String NodeType) :
    (e.makeRegistry (some c) ti nt).1.any Collector.isDbstats
      = (applyCollectAll e.opts).EnableDBStats := by
  simp only [Exporter.makeRegistry, List.any_append, any_ite_singleton]
  simp [Collector.isCollstats, Collector.isGeneral, Collector.isIndexstats,
    Collector.isDiagnosticData, Collector.isDbstats, Collector.isTop,
    Collector.isReplSetGetStatus]

theorem makeRegistry_any_top (e : Exporter) (c : Client)
    (ti : Option TopologyInfo) (nt : Except String NodeType) :
    (e.makeRegistry (some c) ti nt).1.any Collector.isTop
      = ((applyCollectAll e.opts).EnableTopMetrics
          && decide ((getNodeType nt).1 ≠ typeMongos)) := by
  simp only [Exporter.makeRegistry, List.any_append, any_ite_singleton]
  simp [Collector.isCollstats, Collector.isGeneral, Collector.isIndexstats,
    Collector.isDiagnosticData, Collector.isDbstats, Collector.isTop,
    Collector.isReplSetGetStatus]

theorem makeRegistry_any_replSetGetStatus (e : Exporter) (c : Client)
    (ti : Option TopologyInfo) (nt : Except String NodeType) :
    (e.makeRegistry (some c) ti nt).1.any Collector.isReplSetGetStatus
      = ((applyCollectAll e.opts).EnableReplicasetStatus
          && decide ((getNodeType nt).1 ≠ typeMongos)) := by
  simp only [Exporter.makeRegistry, List.any_append, any_ite_singleton]
  simp [Collector.isCollstats, Collector.isGeneral, Collector.isIndexstats,
    Collector.isDiagnosticData, Collector.isDbstats, Collector.isTop,
    Collector.isReplSetGetStatus]

/-! Claim theorems. -/

/-- C1: every `makeRegistry` call, with any connection (including nil) and
any topology classification, registers the general-status collector; and
with a nil connection the resulting registry is exactly the singleton
general-status collector. -/
theorem makeRegistry_general_present_and_nil_exact (e : Exporter)
    (client : Option Client) (ti : Option TopologyInfo)
    (nt : Except String NodeType) :
    ((e.makeRegistry client ti nt).1.any Collector.isGeneral = true)
    ∧ (client = none →
        (e.makeRegistry client ti nt).1
          = [Collector.general { client := none, logger := e.opts.Logger }]) := by
  constructor
  · cases client <;> simp [Exporter.makeRegistry, Collector.isGeneral]
  · intro h
    subst h
    rfl

/-- C1 witness: concrete instantiation of the nil-connection branch. -/
theorem makeRegistry_general_present_and_nil_exact_witness :
    ((mkExporter Opts.zero none (-1)).makeRegistry none none
        (Except.ok NodeType.mongod)).1.any Collector.isGeneral = true
    ∧ ((mkExporter Opts.zero none (-1)).makeRegistry none none
        (Except.ok NodeType.mongod)).1
      = [Collector.general { client := none, logger := (mkExporter Opts.zero none (-1)).opts.Logger }] :=
  ⟨(makeRegistry_general_present_and_nil_exact _ none none (Except.ok NodeType.mongod)).1,
   (makeRegistry_general_present_and_nil_exact _ none none (Except.ok NodeType.mongod)).2 rfl⟩

/-- C2 counterexample: with ceiling 5 and a cached count of 0 the count is
known (not the sentinel -1) and strictly below the ceiling, yet the limit
gate does not pass, refuting the claimed "eligible iff known and strictly
below the ceiling". -/
theorem limit_gate_zero_count_counterexample :
    ((mkExporter { Opts.zero with CollStatsLimit := 5 } (some 1) 0).opts.CollStatsLimit ≠ 0)
    ∧ ((mkExporter { Opts.zero with CollStatsLimit := 5 } (some 1) 0).getTotalCollectionsCount ≠ -1)
    ∧ ((mkExporter { Opts.zero with CollStatsLimit := 5 } (some 1) 0).getTotalCollectionsCount
        < (mkExporter { Opts.zero with CollStatsLimit := 5 } (some 1) 0).opts.CollStatsLimit)
    ∧ limitsOkOf (mkExporter { Opts.zero with CollStatsLimit := 5 } (some 1) 0) = false := by
  decide

/-- C2 (amended): the limit gate passes exactly when the configured
ceiling is zero (unlimited) or the cached count is strictly positive and
strictly below the ceiling; in particular the unknown sentinel -1 (and a
known count of zero) make the gate fail whenever the ceiling is
non-zero. -/
theorem limit_gate_characterization (e : Exporter) :
    limitsOkOf e = true ↔
      (e.opts.CollStatsLimit = 0 ∨
        (0 < e.getTotalCollectionsCount ∧
          e.getTotalCollectionsCount < e.opts.CollStatsLimit)) := by
  simp [limitsOkOf]

/-- C6: with shared pooling enabled, `getClient` returns an existing
handle without consulting the connect outcome; with no handle stored, a
successful connect stores the new handle, and a failed connect returns
the error and leaves the slot unchanged (nil). -/
theorem getClient_global_pool_behavior :
    (∀ (e : Exporter) (c : Client) (o : Except String Client),
      e.opts.GlobalConnPool = true → e.client = some c →
        e.getClient o = (Except.ok c, e))
    ∧ (∀ (e : Exporter) (c : Client),
      e.opts.GlobalConnPool = true → e.client = none →
        e.getClient (Except.ok c) = (Except.ok c, { e with client := some c }))
    ∧ (∀ (e : Exporter) (m : String),
      e.opts.GlobalConnPool = true → e.client = none →
        e.getClient (Except.error m) = (Except.error m, e)) := by
  refine ⟨?_, ?_, ?_⟩ <;> intros <;> simp_all [Exporter.getClient]

/-- C6 witness: the three branches at concrete inputs. -/
theorem getClient_global_pool_behavior_witness :
    ((mkExporter { Opts.zero with GlobalConnPool := true } (some 7) (-1)).getClient
        (Except.error "down")
      = (Except.ok 7, mkExporter { Opts.zero with GlobalConnPool := true } (some 7) (-1)))
    ∧ ((mkExporter { Opts.zero with GlobalConnPool := true } none (-1)).getClient
        (Except.ok 9)
      = (Except.ok 9,
          { mkExporter { Opts.zero with GlobalConnPool := true } none (-1) with
              client := some 9 }))
    ∧ ((mkExporter { Opts.zero with GlobalConnPool := true } none (-1)).getClient
        (Except.error "down")
      = (Except.error "down", mkExporter { Opts.zero with GlobalConnPool := true } none (-1))) :=
  ⟨getClient_global_pool_behavior.1 _ 7 (Except.error "down") rfl rfl,
   getClient_global_pool_behavior.2.1 _ 9 rfl rfl,
   getClient_global_pool_behavior.2.2 _ "down" rfl rfl⟩

/-- C7: when the resolved role is the routing node (mongos), the
operation-timing (top) and replica-status collectors are absent from the
registry, while diagnostic-data and per-database-stats collectors are
still registered whenever their enable flags are set. -/
theorem mongos_role_gate (e : Exporter) (c : Client) (ti : Option TopologyInfo) :
    ((e.makeRegistry (some c) ti (Except.ok NodeType.mongos)).1.any Collector.isTop = false)
    ∧ ((e.makeRegistry (some c) ti
          (Except.ok NodeType.mongos)).1.any Collector.isReplSetGetStatus = false)
    ∧ (e.opts.EnableDiagnosticData = true →
        (e.makeRegistry (some c) ti
          (Except.ok NodeType.mongos)).1.any Collector.isDiagnosticData = true)
    ∧ (e.opts.EnableDBStats = true →
        (e.makeRegistry (some c) ti
          (Except.ok NodeType.mongos)).1.any Collector.isDbstats = true) := by
  refine ⟨?_, ?_, fun h => ?_, fun h => ?_⟩
  · rw [makeRegistry_any_top]
    simp [getNodeType, typeMongos]
  · rw [makeRegistry_any_replSetGetStatus]
    simp [getNodeType, typeMongos]
  · rw [makeRegistry_any_diagnosticData, applyCollectAll_EnableDiagnosticData, h]
    simp
  · rw [makeRegistry_any_dbstats, applyCollectAll_EnableDBStats, h]
    simp

/-- C7 witness: a concrete exporter with every enable flag set, classified
as mongos. -/
theorem mongos_role_gate_witness :
    (((mkExporter optsAllRoleFlags (some 1) (-1)).makeRegistry
        (some 1) none (Except.ok NodeType.mongos)).1.any Collector.isTop = false)
    ∧ (((mkExporter optsAllRoleFlags (some 1) (-1)).makeRegistry
        (some 1) none (Except.ok NodeType.mongos)).1.any Collector.isDiagnosticData = true)
    ∧ (((mkExporter optsAllRoleFlags (some 1) (-1)).makeRegistry
        (some 1) none (Except.ok NodeType.mongos)).1.any Collector.isDbstats = true) :=
  ⟨(mongos_role_gate _ 1 none).1,
   (mongos_role_gate _ 1 none).2.2.1 rfl,
   (mongos_role_gate _ 1 none).2.2.2 rfl⟩

/-- C8 counterexample: with the operation-timing and replica-status enable
flags set and a failing node-role query, both collectors ARE registered,
refuting the claim that they are skipped (fail closed) on role-query
failure. -/
theorem node_type_failure_not_skipped_counterexample :
    (((mkExporter optsRoleRestricted (some 1) (-1)).makeRegistry
        (some 1) none (Except.error "connection reset")).1.any Collector.isTop = true)
    ∧ (((mkExporter optsRoleRestricted (some 1) (-1)).makeRegistry
        (some 1) none
        (Except.error "connection reset")).1.any Collector.isReplSetGetStatus = true) := by
  decide

/-- C8 (amended): when the node-role query fails, the role is treated as
unknown (non-router) for gating, so role-agnostic collectors are still
included AND the role-restricted operation-timing and replica-status
collectors are ALSO included whenever their enable flags are set (the
code fails open for all of them, not closed for the role-restricted
ones). -/
theorem node_type_failure_fail_open (e : Exporter) (c : Client)
    (ti : Option TopologyInfo) (msg : String) :
    ((e.makeRegistry (some c) ti (Except.error msg)).1.any Collector.isGeneral = true)
    ∧ (e.opts.EnableDiagnosticData = true →
        (e.makeRegistry (some c) ti (Except.error msg)).1.any Collector.isDiagnosticData = true)
    ∧ (e.opts.EnableDBStats = true →
        (e.makeRegistry (some c) ti (Except.error msg)).1.any Collector.isDbstats = true)
    ∧ (e.opts.EnableTopMetrics = true →
        (e.makeRegistry (some c) ti (Except.error msg)).1.any Collector.isTop = true)
    ∧ (e.opts.EnableReplicasetStatus = true →
        (e.makeRegistry (some c) ti
          (Except.error msg)).1.any Collector.isReplSetGetStatus = true) := by
  refine ⟨?_, fun h => ?_, fun h => ?_, fun h => ?_, fun h => ?_⟩
  · exact makeRegistry_any_general e (some c) ti (Except.error msg)
  · rw [makeRegistry_any_diagnosticData, applyCollectAll_EnableDiagnosticData, h]
    simp
  · rw [makeRegistry_any_dbstats, applyCollectAll_EnableDBStats, h]
    simp
  · rw [makeRegistry_any_top, applyCollectAll_EnableTopMetrics, h]
    simp [getNodeType, typeMongos]
  · rw [makeRegistry_any_replSetGetStatus, applyCollectAll_EnableReplicasetStatus, h]
    simp [getNodeType, typeMongos]

/-- C8 witness: concrete instantiation of the fail-open behavior. -/
theorem node_type_failure_fail_open_witness :
    (((mkExporter optsAllRoleFlags (some 2) (-1)).makeRegistry
        (some 2) none (Except.error "timeout")).1.any Collector.isGeneral = true)
    ∧ (((mkExporter optsAllRoleFlags (some 2) (-1)).makeRegistry
        (some 2) none (Except.error "timeout")).1.any Collector.isDiagnosticData = true)
    ∧ (((mkExporter optsAllRoleFlags (some 2) (-1)).makeRegistry
        (some 2) none (Except.error "timeout")).1.any Collector.isTop = true) :=
  ⟨(node_type_failure_fail_open _ 2 none "timeout").1,
   (node_type_failure_fail_open _ 2 none "timeout").2.1 rfl,
   (node_type_failure_fail_open _ 2 none "timeout").2.2.2.1 rfl⟩

/-- C3: the collection-count cache starts at the sentinel -1; a request
leaves it unchanged when no live connection was obtained or when it is
already non-negative (so a cached value is never recomputed or
overwritten); with a live connection and a still-negative cache a
successful count stores its (non-negative) result; a failed count
leaves the cache unchanged so the next request retries. -/
theorem collection_count_cache_lifecycle :
    (∀ (o : Option Opts), (New o).totalCollectionsCount = -1)
    ∧ (∀ (e : Exporter) (env : ScrapeEnv),
        ((e.getClient env.connectOutcome).1.toOption = none
            ∨ 0 ≤ e.totalCollectionsCount) →
        (e.Handler env).2.totalCollectionsCount = e.totalCollectionsCount)
    ∧ (∀ (e : Exporter) (env : ScrapeEnv) (c : Client) (n : Nat),
        (e.getClient env.connectOutcome).1 = Except.ok c →
        e.totalCollectionsCount < 0 →
        env.countOutcome = Except.ok n →
        (e.Handler env).2.totalCollectionsCount = (n : Int))
    ∧ (∀ (e : Exporter) (env : ScrapeEnv) (m : String),
        env.countOutcome = Except.error m →
        (e.Handler env).2.totalCollectionsCount = e.totalCollectionsCount) := by
  refine ⟨?_, ?_, ?_, ?_⟩
  · intro o
    cases o <;> simp only [New]
  · intro e env h
    simp only [Exporter.Handler]
    rw [makeRegistry_snd_count]
    cases h with
    | inl hnone =>
      rw [hnone, countIfUnknown_of_none, getClient_snd_count]
    | inr hge =>
      rw [countIfUnknown_of_nonneg, getClient_snd_count]
      rw [getClient_snd_count]
      exact hge
  · intro e env c n hok hneg hco
    simp only [Exporter.Handler]
    rw [makeRegistry_snd_count, getClient_fst_toOption_of_ok _ _ _ hok, hco,
      countIfUnknown_of_ok]
    rw [getClient_snd_count]
    exact hneg
  · intro e env m hco
    simp only [Exporter.Handler]
    rw [makeRegistry_snd_count, hco, countIfUnknown_of_error, getClient_snd_count]

/-- C3 witness: the sentinel at construction, preservation of a cached
value, a successful write, and a failed count at concrete inputs. -/
theorem collection_count_cache_lifecycle_witness :
    ((New (some Opts.zero)).totalCollectionsCount = -1)
    ∧ (((mkExporter Opts.zero (some 1) 3).Handler (envOk (Except.ok 5))).2.totalCollectionsCount
        = (mkExporter Opts.zero (some 1) 3).totalCollectionsCount)
    ∧ (((mkExporter Opts.zero none (-1)).Handler (envOk (Except.ok 5))).2.totalCollectionsCount
        = (5 : Int))
    ∧ (((mkExporter Opts.zero none (-1)).Handler
          (envOk (Except.error "count failed"))).2.totalCollectionsCount
        = (mkExporter Opts.zero none (-1)).totalCollectionsCount) :=
  ⟨collection_count_cache_lifecycle.1 (some Opts.zero),
   collection_count_cache_lifecycle.2.1 _ (envOk (Except.ok 5)) (Or.inr (by decide)),
   collection_count_cache_lifecycle.2.2.1 _ (envOk (Except.ok 5)) 1 5 rfl (by decide) rfl,
   collection_count_cache_lifecycle.2.2.2 _ (envOk (Except.error "count failed"))
     "count failed" rfl⟩

/-- C4 counterexample: collect-all set, no namespace list, limit gate
satisfied (zero ceiling), yet the per-collection-stats collector is
absent because its own enable flag is unset — collect-all does not force
the per-collection-stats enable flag. -/
theorem collect_all_without_enableCollStats_counterexample :
    ((mkExporter optsCollectAllOnly (some 1) (-1)).opts.CollectAll = true)
    ∧ ((mkExporter optsCollectAllOnly (some 1) (-1)).opts.CollStatsNamespaces = [])
    ∧ (limitsOkOf (mkExporter optsCollectAllOnly (some 1) (-1)) = true)
    ∧ (((mkExporter optsCollectAllOnly (some 1) (-1)).makeRegistry (some 1) none
        (Except.ok NodeType.mongod)).1.any Collector.isCollstats = false) := by
  decide

/-- C4 (amended): collect-all forces the diagnostic-data, db-stats,
operation-timing and replica-status enable flags and, when the explicit
namespace list is empty, forces discovery mode; the per-collection-stats
collector is then present provided its own enable flag is also set and
the limit gate passes. -/
theorem collect_all_forces_flags_and_collstats (e : Exporter) (c : Client)
    (ti : Option TopologyInfo) (nt : Except String NodeType)
    (hall : e.opts.CollectAll = true) :
    ((e.makeRegistry (some c) ti nt).2.opts.EnableDiagnosticData = true)
    ∧ ((e.makeRegistry (some c) ti nt).2.opts.EnableDBStats = true)
    ∧ ((e.makeRegistry (some c) ti nt).2.opts.EnableTopMetrics = true)
    ∧ ((e.makeRegistry (some c) ti nt).2.opts.EnableReplicasetStatus = true)
    ∧ (e.opts.CollStatsNamespaces = [] →
        (e.makeRegistry (some c) ti nt).2.opts.DiscoveringMode = true)
    ∧ (e.opts.CollStatsNamespaces = [] → e.opts.EnableCollStats = true →
        limitsOkOf e = true →
        (e.makeRegistry (some c) ti nt).1.any Collector.isCollstats = true) := by
  refine ⟨?_, ?_, ?_, ?_, fun hns => ?_, fun hns hcs hlim => ?_⟩
  · rw [makeRegistry_snd_opts_some, applyCollectAll_EnableDiagnosticData, hall]
    simp
  · rw [makeRegistry_snd_opts_some, applyCollectAll_EnableDBStats, hall]
    simp
  · rw [makeRegistry_snd_opts_some, applyCollectAll_EnableTopMetrics, hall]
    simp
  · rw [makeRegistry_snd_opts_some, applyCollectAll_EnableReplicasetStatus, hall]
    simp
  · rw [makeRegistry_snd_opts_some, applyCollectAll_DiscoveringMode, hall, hns]
    simp
  · rw [makeRegistry_any_collstats, applyCollectAll_EnableCollStats,
      applyCollectAll_DiscoveringMode, applyCollectAll_CollStatsNamespaces,
      hall, hns, hcs, hlim]
    simp

/-- C4 witness: with collect-all, no namespace list, a zero ceiling and
the per-collection-stats enable flag set, the collstats collector is
present. -/
theorem collect_all_forces_flags_and_collstats_witness :
    ((mkExporter optsCollectAllStats (some 1) (-1)).makeRegistry (some 1) none
        (Except.ok NodeType.mongod)).1.any Collector.isCollstats = true :=
  (collect_all_forces_flags_and_collstats _ 1 none (Except.ok NodeType.mongod)
      rfl).2.2.2.2.2 rfl rfl (by decide)

/-- C5 counterexample: with the collect-all flag set, `makeRegistry`
writes through the shared options record (forcing the enable flags), so
the configuration is NOT immutable during request handling. -/
theorem opts_mutated_by_collect_all_counterexample :
    ((mkExporter optsCollectAllOnly (some 1) (-1)).makeRegistry (some 1) none
        (Except.ok NodeType.mongod)).2.opts
      ≠ (mkExporter optsCollectAllOnly (some 1) (-1)).opts := by
  decide

/-- C5 (amended): `getClient` never modifies the configuration; a scrape
request leaves the configuration unchanged whenever collect-all is
unset; path, listen address and logger are never modified; and with
collect-all set the only configuration change is the collect-all
shortcut itself (forcing discovery mode when the namespace list is
empty, plus the four enable flags). -/
theorem opts_immutable_unless_collect_all :
    (∀ (e : Exporter) (o : Except String Client), (e.getClient o).2.opts = e.opts)
    ∧ (∀ (e : Exporter) (env : ScrapeEnv), e.opts.CollectAll = false →
        (e.Handler env).2.opts = e.opts)
    ∧ (∀ (e : Exporter) (env : ScrapeEnv),
        (e.Handler env).2.path = e.path
        ∧ (e.Handler env).2.webListenAddress = e.webListenAddress
        ∧ (e.Handler env).2.logger = e.logger)
    ∧ (∀ (e : Exporter) (c : Client) (ti : Option TopologyInfo)
        (nt : Except String NodeType), e.opts.CollectAll = true →
        (e.makeRegistry (some c) ti nt).2.opts
          = { e.opts with
                DiscoveringMode :=
                  ((e.opts.CollStatsNamespaces.length == 0) || e.opts.DiscoveringMode)
                EnableDiagnosticData := true
                EnableDBStats := true
                EnableTopMetrics := true
                EnableReplicasetStatus := true }) := by
  refine ⟨getClient_snd_opts, ?_, ?_, ?_⟩
  · intro e env h
    simp only [Exporter.Handler]
    rw [makeRegistry_snd_opts_of_not_collectAll, countIfUnknown_opts, getClient_snd_opts]
    rw [countIfUnknown_opts, getClient_snd_opts]
    exact h
  · intro e env
    refine ⟨?_, ?_, ?_⟩ <;> simp only [Exporter.Handler]
    · rw [makeRegistry_snd_path, countIfUnknown_path, getClient_snd_path]
    · rw [makeRegistry_snd_web, countIfUnknown_web, getClient_snd_web]
    · rw [makeRegistry_snd_logger, countIfUnknown_logger, getClient_snd_logger]
  · intro e c ti nt h
    rw [makeRegistry_snd_opts_some]
    unfold applyCollectAll
    split_ifs <;> simp_all

/-- C5 witness: a request with collect-all unset preserves the
configuration; with collect-all set, discovery mode is forced. -/
theorem opts_immutable_unless_collect_all_witness :
    (((mkExporter Opts.zero (some 1) (-1)).Handler envDown).2.opts
        = (mkExporter Opts.zero (some 1) (-1)).opts)
    ∧ ((mkExporter optsCollectAllOnly (some 1) (-1)).makeRegistry (some 1) none
        (Except.ok NodeType.mongod)).2.opts.DiscoveringMode = true := by
  constructor
  · exact opts_immutable_unless_collect_all.2.1 _ envDown rfl
  · rw [opts_immutable_unless_collect_all.2.2.2 _ 1 none (Except.ok NodeType.mongod) rfl]
    decide

/-- C9: a live connection whose topology classification fails yields a
500 response whose body contains the classification error text; a live
connection with successful classification yields 200 (so the failure is
scoped to its own request); a connect failure yields 200 with the
registry reduced to the general-status collector. -/
theorem handler_topology_failure_500 :
    (∀ (e : Exporter) (env : ScrapeEnv) (c : Client) (msg : String),
        (e.getClient env.connectOutcome).1 = Except.ok c →
        env.topologyOutcome = Except.error msg →
        (e.Handler env).1.code = 500
        ∧ BodyChunk.errorText
            ("An error has occurred while getting topology info:\n\n" ++ msg)
            ∈ (e.Handler env).1.body)
    ∧ (∀ (e : Exporter) (env : ScrapeEnv) (c : Client) (t : TopologyInfo),
        (e.getClient env.connectOutcome).1 = Except.ok c →
        env.topologyOutcome = Except.ok t →
        (e.Handler env).1.code = 200)
    ∧ (∀ (e : Exporter) (env : ScrapeEnv) (m : String),
        (e.getClient env.connectOutcome).1 = Except.error m →
        (e.Handler env).1.code = 200
        ∧ (e.Handler env).1.body
            = [BodyChunk.exposition (!e.opts.DisableDefaultRegistry)
                [Collector.general { client := none, logger := e.opts.Logger }]]) := by
  refine ⟨?_, ?_, ?_⟩
  · intro e env c msg hok htopo
    simp only [Exporter.Handler]
    rw [getClient_fst_toOption_of_ok _ _ _ hok, htopo]
    simp [topologyStep, HttpResponse.httpError, HttpResponse.serveMetrics,
      HttpResponse.empty, HttpResponse.code]
  · intro e env c t hok htopo
    simp only [Exporter.Handler]
    rw [getClient_fst_toOption_of_ok _ _ _ hok, htopo]
    simp [topologyStep, HttpResponse.serveMetrics, HttpResponse.empty,
      HttpResponse.code]
  · intro e env m herr
    simp only [Exporter.Handler]
    rw [getClient_fst_toOption_of_error _ _ _ herr,
      getClient_snd_of_error _ _ _ herr, countIfUnknown_of_none]
    simp [topologyStep, Exporter.makeRegistry, HttpResponse.serveMetrics,
      HttpResponse.empty, HttpResponse.code]

/-- C9 witness: the 500 with error text, the 200 on a later successful
request, and the reduced-registry 200 on connect failure, at concrete
inputs. -/
theorem handler_topology_failure_500_witness :
    (((mkExporter Opts.zero (some 1) (-1)).Handler envTopoFail).1.code = 500)
    ∧ (BodyChunk.errorText
        ("An error has occurred while getting topology info:\n\n" ++ "not primary")
        ∈ ((mkExporter Opts.zero (some 1) (-1)).Handler envTopoFail).1.body)
    ∧ (((mkExporter Opts.zero (some 1) (-1)).Handler (envOk (Except.ok 5))).1.code = 200)
    ∧ (((mkExporter Opts.zero (some 1) (-1)).Handler envDown).1.code = 200) :=
  ⟨(handler_topology_failure_500.1 (mkExporter Opts.zero (some 1) (-1))
      envTopoFail 1 "not primary" rfl rfl).1,
   (handler_topology_failure_500.1 (mkExporter Opts.zero (some 1) (-1))
      envTopoFail 1 "not primary" rfl rfl).2,
   handler_topology_failure_500.2.1 (mkExporter Opts.zero (some 1) (-1))
     (envOk (Except.ok 5)) 1 () rfl rfl,
   (handler_topology_failure_500.2.2 (mkExporter Opts.zero (some 1) (-1))
      envDown "down" rfl).1⟩

/-- C10: `New` is total and performs no synchronous connect: nil options
become a fresh zero-valued record, a nil logger is replaced by the
default logger, the collection-count cache starts at the sentinel -1, no
client handle is stored at construction, and a failing background
initial-connect attempt leaves the constructed exporter unchanged. -/
theorem new_constructor_safety :
    (∀ (o : Option Opts), (New o).client = none ∧ (New o).totalCollectionsCount = -1)
    ∧ (New none = New (some Opts.zero))
    ∧ (∀ (o : Opts), o.Logger = none →
        (New (some o)).logger = some defaultLogger
        ∧ (New (some o)).opts = { o with Logger := some defaultLogger })
    ∧ (∀ (o : Opts) (l : Logger), o.Logger = some l →
        (New (some o)).logger = some l ∧ (New (some o)).opts = o)
    ∧ (∀ (o : Option Opts) (msg : String),
        backgroundConnect (New o) (Except.error msg) = New o) := by
  refine ⟨?_, rfl, ?_, ?_, ?_⟩
  · intro o
    constructor <;> (cases o <;> simp only [New])
  · intro o h
    refine ⟨?_, ?_⟩ <;> simp [New, h]
  · intro o l h
    refine ⟨?_, ?_⟩ <;> simp [New, h]
  · intro o msg
    have hc : (New o).client = none := by
      cases o <;> simp only [New]
    unfold backgroundConnect Exporter.getClient
    split
    · rw [hc]
    · rfl

/-- C10 witness: nil and nil-logger defaulting and a harmless failing
background connect, at concrete inputs. -/
theorem new_constructor_safety_witness :
    ((New (some optsCollectAllOnly)).logger = some defaultLogger)
    ∧ ((New (some optsCollectAllOnly)).opts
        = { optsCollectAllOnly with Logger := some defaultLogger })
    ∧ (backgroundConnect (New none) (Except.error "refused") = New none) :=
  ⟨(new_constructor_safety.2.2.1 optsCollectAllOnly rfl).1,
   (new_constructor_safety.2.2.1 optsCollectAllOnly rfl).2,
   new_constructor_safety.2.2.2.2 none "refused"⟩

end MongodbExporter
